import Mathlib

/-!
Verification of the request handler of the amplify-nextjs-api-lambda
tutorial repository, together with the address-pool component its
specification describes.

The authoritative code is the Lambda handler (functions/get-ip/handler.ts):

  export const handler: APIGatewayProxyHandler = async (event) => \x7b
    console.log("event", event)
    let json = "Fail to fetch IP address"
    try \x7b
      const response = await fetch("https://api.ipify.org?format=json")
      if (response.ok) \x7b json = await response.json() \x7d
      else \x7b json = response.statusText \x7d
    \x7d catch (error) \x7b
      if (error instanceof Error) \x7b json = error.message \x7d
    \x7d
    return \x7b statusCode: 200,
             headers: \x7b "Content-Type": "application/json" \x7d,
             body: JSON.stringify(json) \x7d
  \x7d

The embedding makes the effectful boundary explicit: the outcome of each
outbound fetch is an input to the (pure) handler, supplied as an oracle
indexed by attempt number.  The handler performs a single fetch, so only
index 0 is consulted; the oracle form lets us state and refute claims
about retry behaviour.
-/

/-- A JSON value, as produced by parsing a response body. -/
inductive Json where
  | null : Json
  | bool : Bool → Json
  | num : Int → Json
  | str : String → Json
  | arr : List Json → Json
  | obj : List (String × Json) → Json

/-- Lower-case hexadecimal digit, as used by JSON.stringify for control
characters. -/
def hexDigit (n : Nat) : Char :=
  if n < 10 then Char.ofNat (48 + n) else Char.ofNat (87 + n)

/-- Escaping of one character inside a JSON string literal, following
JSON.stringify: quote and backslash are escaped, the named control
characters get their short escapes, the remaining control characters get
a \u00XX escape, everything else is emitted verbatim. -/
def escapeChar (c : Char) : String :=
  if c = '\"' then "\\\""
  else if c = '\\' then "\\\\"
  else if c = '\x08' then "\\b"
  else if c = '\x09' then "\\t"
  else if c = '\x0a' then "\\n"
  else if c = '\x0c' then "\\f"
  else if c = '\x0d' then "\\r"
  else if c.toNat < 32 then
    "\\u00" ++ String.singleton (hexDigit (c.toNat / 16))
      ++ String.singleton (hexDigit (c.toNat % 16))
  else String.singleton c

/-- Escaping of a character list; JSON.stringify escapes a string
character by character. -/
def escapeList : List Char → String
  | [] => ""
  | c :: cs => escapeChar c ++ escapeList cs

/-- Escaping of the contents of a JSON string literal. -/
def escape (s : String) : String := escapeList s.data

mutual

/-- JSON serialization, following JSON.stringify on the value space of
the handler (no undefined, no functions). -/
def Json.stringify : Json → String
  | .null => "null"
  | .bool b => if b then "true" else "false"
  | .num n => toString n
  | .str s => "\"" ++ escape s ++ "\""
  | .arr xs => "[" ++ Json.stringifyElems xs ++ "]"
  | .obj fs => "\x7b" ++ Json.stringifyFields fs ++ "\x7d"

/-- Comma-separated serialization of array elements. -/
def Json.stringifyElems : List Json → String
  | [] => ""
  | [x] => Json.stringify x
  | x :: xs => Json.stringify x ++ "," ++ Json.stringifyElems xs

/-- Comma-separated serialization of object fields. -/
def Json.stringifyFields : List (String × Json) → String
  | [] => ""
  | [kv] => "\"" ++ escape kv.1 ++ "\":" ++ Json.stringify kv.2
  | kv :: fs =>
      "\"" ++ escape kv.1 ++ "\":" ++ Json.stringify kv.2 ++ ","
        ++ Json.stringifyFields fs

end

/-- A value thrown by JavaScript code, as seen by a catch clause: either
a value that is an instance of Error (carrying its message), or any
other value. -/
inductive JsThrown where
  | jsError (message : String) : JsThrown
  | nonError : JsThrown
  deriving DecidableEq, Repr

/-- The slice of a fetch Response the handler touches, plus the raw body
text (which the handler never reads, but the specification talks about).
response.json() either resolves to a JSON value or rejects with a thrown
value (a SyntaxError on a malformed body). -/
structure Response where
  ok : Bool
  statusText : String
  text : String
  jsonResult : Except JsThrown Json

/-- Outcome of one outbound fetch call: the promise either resolves with
a Response or rejects with a thrown value. -/
inductive FetchResult where
  | resolved (r : Response) : FetchResult
  | rejected (e : JsThrown) : FetchResult

/-- The slice of an APIGatewayProxyEvent relevant to the route: the
handler only logs it. -/
structure APIGatewayProxyEvent where
  httpMethod : String
  path : String
  headers : List (String × String)
  body : Option String
  deriving DecidableEq, Repr

/-- The APIGatewayProxyResult shape the handler returns. -/
structure APIGatewayProxyResult where
  statusCode : Nat
  headers : List (String × String)
  body : String
  deriving DecidableEq, Repr

/-- The initial value of the json variable of the handler. -/
def defaultFailureMessage : String := "Fail to fetch IP address"

/-- The Lambda handler.  fetchOutcome n is the outcome of the n-th
outbound fetch of this invocation; the code performs exactly one fetch,
so only fetchOutcome 0 is consulted.  The json variable starts as the
default failure string; it is reassigned to the parsed body when the
response is ok and parses, to statusText when the response is not ok,
and to the message of the caught error when a thrown value is an Error; a
thrown non-Error leaves it at the default.  The event is only logged. -/
def handler (event : APIGatewayProxyEvent) (fetchOutcome : Nat → FetchResult) :
    APIGatewayProxyResult :=
  let json : Json := Json.str defaultFailureMessage
  let json : Json :=
    match fetchOutcome 0 with
    | .resolved response =>
        if response.ok then
          match response.jsonResult with
          | .ok j => j
          | .error (.jsError msg) => Json.str msg
          | .error .nonError => json
        else Json.str response.statusText
    | .rejected (.jsError msg) => Json.str msg
    | .rejected .nonError => json
  { statusCode := 200
    headers := [("Content-Type", "application/json")]
    body := Json.stringify json }

/-- A concrete inbound event used to instantiate theorems. -/
def ev0 : APIGatewayProxyEvent :=
  { httpMethod := "GET", path := "", headers := [], body := none }

/-- A second concrete inbound event, differing from ev0 everywhere. -/
def ev1 : APIGatewayProxyEvent :=
  { httpMethod := "POST", path := "/other", headers := [("X-A", "b")],
    body := some "payload" }

/-- Characters that escapeChar emits verbatim: not a quote, not a
backslash, not a control character. -/
def plainChar (c : Char) : Bool :=
  (c != '\"') && (c != '\\') && decide (32 ≤ c.toNat)

theorem escapeChar_plain (c : Char) (h : plainChar c = true) :
    escapeChar c = String.singleton c := by
  unfold plainChar at h
  simp only [Bool.and_eq_true, bne_iff_ne, decide_eq_true_eq] at h
  obtain ⟨⟨h1, h2⟩, h3⟩ := h
  have h8 : c ≠ '\x08' := by rintro rfl; exact absurd h3 (by decide)
  have h9 : c ≠ '\x09' := by rintro rfl; exact absurd h3 (by decide)
  have ha : c ≠ '\x0a' := by rintro rfl; exact absurd h3 (by decide)
  have hc : c ≠ '\x0c' := by rintro rfl; exact absurd h3 (by decide)
  have hd : c ≠ '\x0d' := by rintro rfl; exact absurd h3 (by decide)
  have hlt : ¬ (c.toNat < 32) := by omega
  simp [escapeChar, h1, h2, h8, h9, ha, hc, hd, hlt]

theorem escapeList_plain (l : List Char) (h : ∀ c ∈ l, plainChar c = true) :
    escapeList l = String.mk l := by
  induction l with
  | nil => rfl
  | cons c cs ih =>
      rw [escapeList, escapeChar_plain c (h c (List.mem_cons_self c cs)),
        ih (fun d hd => h d (List.mem_cons_of_mem c hd))]
      rfl

theorem escape_plain (s : String) (h : ∀ c ∈ s.data, plainChar c = true) :
    escape s = s := by
  obtain ⟨l⟩ := s
  exact escapeList_plain l h

/-- Health classification of a source address (spec section 3). -/
inductive Health where
  | healthy : Health
  | unhealthy : Health
  | unknown : Health
  deriving DecidableEq, BEq, Repr

/-- Modelled from the spec: one egress IP bindable for outbound calls,
with identifier, network address and health status (spec section 3,
SourceAddress).  The repository has no such type; the source delegates
egress addressing to managed NAT infrastructure. -/
structure SourceAddress where
  id : String
  address : String
  health : Health
  deriving DecidableEq, BEq, Repr

/-- Modelled from the spec: ordered collection of SourceAddress with an
assignment cursor (spec section 3, AddressPool). -/
structure AddressPool where
  addresses : List SourceAddress
  cursor : Nat
  deriving DecidableEq, BEq, Repr

/-- Modelled from the spec: the candidate list acquire draws from, per
spec section 4.1: the addresses not marked unhealthy, or, when all are
unhealthy, the full pool (degrade rather than refuse). -/
def livePool (p : AddressPool) : List SourceAddress :=
  if (p.addresses.filter (fun a => a.health != Health.unhealthy)).isEmpty
  then p.addresses
  else p.addresses.filter (fun a => a.health != Health.unhealthy)

/-- Modelled from the spec: acquire selects the next address using
round-robin (the cursor) over the candidate list; the empty pool cannot
serve (spec section 4.1).  The repository contains no Address Pool
Manager, so this definition follows the words of spec section 4.1. -/
def acquire (p : AddressPool) : Option (SourceAddress × AddressPool) :=
  if h : 0 < (livePool p).length then
    some ((livePool p).get ⟨p.cursor % (livePool p).length, Nat.mod_lt p.cursor h⟩,
      { p with cursor := p.cursor + 1 })
  else none

theorem livePool_subset (p : AddressPool) (a : SourceAddress)
    (ha : a ∈ livePool p) : a ∈ p.addresses := by
  unfold livePool at ha
  split at ha
  case isTrue => exact ha
  case isFalse => exact List.mem_of_mem_filter ha

theorem livePool_ne_nil (p : AddressPool) (h : p.addresses ≠ []) :
    livePool p ≠ [] := by
  unfold livePool
  split
  case isTrue => exact h
  case isFalse hne => intro hc; exact hne (by rw [hc]; rfl)

/-- Fixture: a first configured egress address. -/
def addrA : SourceAddress :=
  { id := "eipalloc-a", address := "198.51.100.7", health := Health.unknown }

/-- Fixture: a second configured egress address. -/
def addrB : SourceAddress :=
  { id := "eipalloc-b", address := "198.51.100.8", health := Health.unknown }

/-- Fixture: a two-address pool with the cursor at the start. -/
def pool0 : AddressPool := { addresses := [addrA, addrB], cursor := 0 }

/-- Fixture: every fetch attempt rejects with a value that is not an
Error instance. -/
def rejectNonErrorOracle : Nat → FetchResult :=
  fun _ => FetchResult.rejected JsThrown.nonError

/-- Fixture: every fetch attempt rejects with a timeout Error. -/
def oracleTimeout : Nat → FetchResult :=
  fun _ => FetchResult.rejected (JsThrown.jsError "connect ETIMEDOUT")

/-- Fixture: a well-formed successful upstream response carrying an ip
object. -/
def respOk : Response :=
  { ok := true, statusText := "OK",
    text := "\x7b\"ip\":\"203.0.113.9\"\x7d",
    jsonResult := Except.ok (Json.obj [("ip", Json.str "203.0.113.9")]) }

/-- Fixture: the first fetch attempt fails with a connection reset and
every later attempt would succeed. -/
def oracleFailThenOk : Nat → FetchResult
  | 0 => FetchResult.rejected (JsThrown.jsError "connect ECONNRESET")
  | _ + 1 => FetchResult.resolved respOk

/-- Fixture: every fetch attempt fails with a connection reset. -/
def oracleFailAlways : Nat → FetchResult :=
  fun _ => FetchResult.rejected (JsThrown.jsError "connect ECONNRESET")

/-- C1: for every inbound request and every outcome of the outbound call
(success, non-2xx status, thrown network error), the handler returns a
response with statusCode 200; it never returns a non-200 status to its
caller. -/
theorem handler_statusCode_always_200 (event : APIGatewayProxyEvent)
    (fetchOutcome : Nat → FetchResult) :
    (handler event fetchOutcome).statusCode = 200 := rfl

/-- C2: the handler always terminates normally with a result of the
response shape: for any outcome injected at the outbound-call boundary
(rejection, non-2xx status, malformed body), it returns a 200 response
with the application/json header whose body serializes some JSON value;
no fault propagates to the caller. -/
theorem handler_always_returns_result (event : APIGatewayProxyEvent)
    (fetchOutcome : Nat → FetchResult) :
    ∃ j : Json, handler event fetchOutcome =
      { statusCode := 200
        headers := [("Content-Type", "application/json")]
        body := Json.stringify j } :=
  ⟨_, rfl⟩

/-- C9: if the outbound fetch rejects with a value that is not an Error
instance, the body is the JSON-stringified default string
"Fail to fetch IP address". -/
theorem handler_nonError_rejection (event : APIGatewayProxyEvent)
    (fetchOutcome : Nat → FetchResult)
    (h : fetchOutcome 0 = FetchResult.rejected JsThrown.nonError) :
    (handler event fetchOutcome).body = "\"Fail to fetch IP address\"" := by
  unfold handler
  rw [h]
  rfl

/-- Witness for C9 at a concrete rejecting oracle. -/
theorem handler_nonError_rejection_witness :
    (handler ev0 rejectNonErrorOracle).body = "\"Fail to fetch IP address\"" :=
  handler_nonError_rejection ev0 rejectNonErrorOracle rfl

/-- C10: the response is independent of the inbound event: two
invocations whose outbound calls produce the same outcomes return
identical responses. -/
theorem handler_event_independent (e1 e2 : APIGatewayProxyEvent)
    (fetchOutcome : Nat → FetchResult) :
    handler e1 fetchOutcome = handler e2 fetchOutcome := rfl

/-- C6 counterexample: the first attempt fails with a connection reset
and the second attempt would succeed, yet the handler returns the first
failure: no retry is performed and no further attempt is consulted. -/
theorem handler_no_retry_counterexample :
    oracleFailThenOk 0
        = FetchResult.rejected (JsThrown.jsError "connect ECONNRESET") ∧
    oracleFailThenOk 1 = FetchResult.resolved respOk ∧
    (handler ev0 oracleFailThenOk).body = "\"connect ECONNRESET\"" ∧
    (handler ev0 oracleFailThenOk).body ≠
      Json.stringify (Json.obj [("ip", Json.str "203.0.113.9")]) := by
  refine ⟨rfl, rfl, rfl, ?_⟩
  decide

/-- C6 amended: the handler performs exactly one outbound attempt and
never retries: its response is determined by the outcome of the first
attempt alone, with no re-acquisition of a source address. -/
theorem handler_single_attempt (event : APIGatewayProxyEvent)
    (f g : Nat → FetchResult) (h : f 0 = g 0) :
    handler event f = handler event g := by
  unfold handler
  rw [h]

/-- Witness for the amended C6: two oracles that agree on the first
attempt but differ on the second produce the same response. -/
theorem handler_single_attempt_witness :
    handler ev0 oracleFailThenOk = handler ev0 oracleFailAlways :=
  handler_single_attempt ev0 oracleFailThenOk oracleFailAlways rfl

/-- C3 counterexample: an upstream that rejects every attempt with a
timeout Error makes the handler return the message of that Error, not
the fixed failure string "Fail to fetch IP address" (neither bare nor
JSON-stringified). -/
theorem handler_timeout_not_default :
    (∀ n, oracleTimeout n
        = FetchResult.rejected (JsThrown.jsError "connect ETIMEDOUT")) ∧
    (handler ev0 oracleTimeout).statusCode = 200 ∧
    (handler ev0 oracleTimeout).body ≠ defaultFailureMessage ∧
    (handler ev0 oracleTimeout).body ≠
      Json.stringify (Json.str defaultFailureMessage) ∧
    (handler ev0 oracleTimeout).body = "\"connect ETIMEDOUT\"" := by
  refine ⟨fun n => rfl, rfl, ?_, ?_, rfl⟩ <;> decide

/-- C3 amended: if every fetch attempt rejects, the handler returns
status 200; the body is the JSON-stringified default failure string
"Fail to fetch IP address" when the rejection value is not an Error, and
the JSON-stringified message of the Error when it is. -/
theorem handler_all_reject (event : APIGatewayProxyEvent)
    (fetchOutcome : Nat → FetchResult) (v : JsThrown)
    (h : ∀ n, fetchOutcome n = FetchResult.rejected v) :
    (handler event fetchOutcome).statusCode = 200 ∧
    (handler event fetchOutcome).body =
      Json.stringify (Json.str (match v with
        | JsThrown.jsError msg => msg
        | JsThrown.nonError => defaultFailureMessage)) := by
  refine ⟨rfl, ?_⟩
  unfold handler
  rw [h 0]
  cases v <;> rfl

/-- Witness for the amended C3 at a concrete always-rejecting oracle. -/
theorem handler_all_reject_witness :
    (handler ev0 oracleTimeout).statusCode = 200 ∧
    (handler ev0 oracleTimeout).body =
      Json.stringify (Json.str "connect ETIMEDOUT") :=
  handler_all_reject ev0 oracleTimeout (JsThrown.jsError "connect ETIMEDOUT")
    (fun n => rfl)

/-- C8: when the upstream responds with a non-ok status, the body is the
JSON-stringified statusText of that response; for a statusText of plain
characters this is the statusText surrounded by quotes, not the default
failure string. -/
theorem handler_non_ok_statusText (event : APIGatewayProxyEvent)
    (fetchOutcome : Nat → FetchResult) (r : Response)
    (h : fetchOutcome 0 = FetchResult.resolved r) (hok : r.ok = false)
    (hplain : ∀ c ∈ r.statusText.data, plainChar c = true) :
    (handler event fetchOutcome).body = Json.stringify (Json.str r.statusText) ∧
    (handler event fetchOutcome).body = "\"" ++ r.statusText ++ "\"" := by
  obtain ⟨ok, st, tx, jr⟩ := r
  subst hok
  have hb : (handler event fetchOutcome).body
      = Json.stringify (Json.str st) := by
    unfold handler
    rw [h]
    rfl
  refine ⟨hb, ?_⟩
  rw [hb]
  show "\"" ++ escape st ++ "\"" = "\"" ++ st ++ "\""
  rw [escape_plain st hplain]

/-- Fixture: a 503 upstream response. -/
def resp503 : Response :=
  { ok := false, statusText := "Service Unavailable",
    text := "", jsonResult := Except.error JsThrown.nonError }

/-- Fixture: every fetch attempt resolves with the 503 response. -/
def oracle503 : Nat → FetchResult := fun _ => FetchResult.resolved resp503

/-- Witness for C8 at a concrete 503 response. -/
theorem handler_non_ok_statusText_witness :
    (handler ev0 oracle503).body
        = Json.stringify (Json.str "Service Unavailable") ∧
    (handler ev0 oracle503).body = "\"" ++ "Service Unavailable" ++ "\"" :=
  handler_non_ok_statusText ev0 oracle503 resp503 rfl rfl (by decide)

theorem stringify_ip_obj (s : String) (h : ∀ c ∈ s.data, plainChar c = true) :
    Json.stringify (Json.obj [("ip", Json.str s)])
      = "\x7b\"ip\":\"" ++ s ++ "\"\x7d" := by
  have h1 : Json.stringify (Json.obj [("ip", Json.str s)])
      = "\x7b" ++ ("\"" ++ escape "ip" ++ "\":" ++ ("\"" ++ escape s ++ "\""))
          ++ "\x7d" := rfl
  rw [h1, escape_plain s h]
  apply String.ext
  simp only [String.data_append, List.append_assoc]
  rfl

/-- C4: on a successful upstream call carrying an ip object, the
response has status 200, the Content-Type header application/json, and a
JSON body of shape ip-object around the address. -/
theorem handler_success_shape (event : APIGatewayProxyEvent)
    (fetchOutcome : Nat → FetchResult) (r : Response) (addr : String)
    (h : fetchOutcome 0 = FetchResult.resolved r) (hok : r.ok = true)
    (hjson : r.jsonResult = Except.ok (Json.obj [("ip", Json.str addr)]))
    (hplain : ∀ c ∈ addr.data, plainChar c = true) :
    handler event fetchOutcome =
      { statusCode := 200
        headers := [("Content-Type", "application/json")]
        body := "\x7b\"ip\":\"" ++ addr ++ "\"\x7d" } := by
  obtain ⟨ok, st, tx, jr⟩ := r
  subst hok
  subst hjson
  have hb : handler event fetchOutcome =
      { statusCode := 200
        headers := [("Content-Type", "application/json")]
        body := Json.stringify (Json.obj [("ip", Json.str addr)]) } := by
    unfold handler
    rw [h]
    rfl
  rw [hb, stringify_ip_obj addr hplain]

/-- Fixture: every fetch attempt resolves with the successful ip
response. -/
def oracleOk : Nat → FetchResult := fun _ => FetchResult.resolved respOk

/-- Witness for C4 at a concrete successful response. -/
theorem handler_success_shape_witness :
    handler ev0 oracleOk =
      { statusCode := 200
        headers := [("Content-Type", "application/json")]
        body := "\x7b\"ip\":\"" ++ "203.0.113.9" ++ "\"\x7d" } :=
  handler_success_shape ev0 oracleOk respOk "203.0.113.9" rfl rfl rfl
    (by decide)

/-- Fixture: an ok response whose body is not valid JSON, so that
response.json() rejects with a SyntaxError. -/
def respMalformed : Response :=
  { ok := true, statusText := "OK",
    text := "upstream sent plain text",
    jsonResult := Except.error
      (JsThrown.jsError "Unexpected token u in JSON at position 0") }

/-- Fixture: every fetch attempt resolves with the malformed-body
response. -/
def oracleMalformed : Nat → FetchResult :=
  fun _ => FetchResult.resolved respMalformed

/-- C5 counterexample: with an ok response whose body is malformed, the
body of the handler response is not the raw response text (neither bare
nor JSON-stringified); it is the message of the parse error. -/
theorem handler_malformed_not_raw_text :
    respMalformed.ok = true ∧
    (handler ev0 oracleMalformed).statusCode = 200 ∧
    (handler ev0 oracleMalformed).body ≠ respMalformed.text ∧
    (handler ev0 oracleMalformed).body
        ≠ Json.stringify (Json.str respMalformed.text) ∧
    (handler ev0 oracleMalformed).body
        = "\"Unexpected token u in JSON at position 0\"" := by
  refine ⟨rfl, rfl, ?_, ?_, rfl⟩ <;> decide

/-- C5 amended: when the upstream returns an ok status but a malformed
body whose parse failure is an Error, the handler still returns 200 and
uses the JSON-stringified message of the parse error as the body; the
raw response text is not used. -/
theorem handler_malformed_uses_error_message (event : APIGatewayProxyEvent)
    (fetchOutcome : Nat → FetchResult) (r : Response) (msg : String)
    (h : fetchOutcome 0 = FetchResult.resolved r) (hok : r.ok = true)
    (hjson : r.jsonResult = Except.error (JsThrown.jsError msg)) :
    (handler event fetchOutcome).statusCode = 200 ∧
    (handler event fetchOutcome).body = Json.stringify (Json.str msg) := by
  obtain ⟨ok, st, tx, jr⟩ := r
  subst hok
  subst hjson
  refine ⟨rfl, ?_⟩
  unfold handler
  rw [h]
  rfl

/-- Witness for the amended C5 at the concrete malformed response. -/
theorem handler_malformed_uses_error_message_witness :
    (handler ev0 oracleMalformed).statusCode = 200 ∧
    (handler ev0 oracleMalformed).body = Json.stringify
      (Json.str "Unexpected token u in JSON at position 0") :=
  handler_malformed_uses_error_message ev0 oracleMalformed respMalformed
    "Unexpected token u in JSON at position 0" rfl rfl rfl

/-- C7: for every non-empty configured address pool, an address returned
by acquire is a member of the configured set, and acquire leaves the
configured set unchanged, so no call ever yields an address outside
it. -/
theorem acquire_returns_member (p : AddressPool) (a : SourceAddress)
    (q : AddressPool) ( _hne : p.addresses ≠ [])
    (ha : acquire p = some (a, q)) :
    a ∈ p.addresses ∧ q.addresses = p.addresses := by
  unfold acquire at ha
  split at ha
  case isTrue hpos =>
    simp only [Option.some.injEq, Prod.mk.injEq] at ha
    obtain ⟨ha1, ha2⟩ := ha
    constructor
    · rw [← ha1]
      exact livePool_subset p _ (List.get_mem _ _ _)
    · rw [← ha2]
  case isFalse => exact Option.noConfusion ha

/-- Witness for C7 at the concrete two-address pool. -/
theorem acquire_returns_member_witness :
    addrA ∈ pool0.addresses ∧
      (AddressPool.mk [addrA, addrB] 1).addresses = pool0.addresses :=
  acquire_returns_member pool0 addrA (AddressPool.mk [addrA, addrB] 1)
    (by decide) (by decide)
